import Mathlib

/-!
Verification development for the template-management script `init.py`.

The script selects report/slide templates from a static registry, copies them
into `<target>/report` and `<target>/slide` (with build-artifact exclusion
patterns), locates a `Makefile` in the copied tree and invokes `make` there.

The embedding below models the filesystem as a tree of named entries, the
registry as association lists, and `main` as a pure function from the parsed
selection plus an environment (filesystem state, prompt answers, outcome of
the external `make` process) to an observable run result (exit code, which
directories were created, which copies/builds were attempted, captured
listing output).
-/

namespace TemplateInit

/-- A filesystem entry: a file with contents, or a directory with children. -/
inductive Entry where
  | file (name : String) (content : String)
  | dir (name : String) (children : List Entry)

/-- Name of an entry. -/
def Entry.name : Entry → String
  | .file n _ => n
  | .dir n _ => n

/-- Whether a directory listing contains an entry (file or directory) with the
given name; models `(path / name).exists()`. -/
def hasEntryNamed (es : List Entry) (n : String) : Bool :=
  es.any fun e => e.name == n

/-- Whether a directory listing contains a regular file named `Makefile`;
models the `'Makefile' in files` test of the `os.walk` loop. -/
def hasMakefileFile (es : List Entry) : Bool :=
  es.any fun e => match e with
    | .file n _ => n == "Makefile"
    | .dir _ _ => false

/-- Resolve a relative path (list of components) to the listing of the
directory it denotes, if every component exists and is a directory. -/
def lookupPath : List Entry → List String → Option (List Entry)
  | es, [] => some es
  | es, n :: rest =>
    match es.find? (fun e => e.name == n) with
    | some (.dir _ cs) => lookupPath cs rest
    | _ => none

/-- Content of the first regular file with the given name in a listing;
models `source_path / filename` existence/read for a file. -/
def findFileContent (es : List Entry) (n : String) : Option String :=
  match es.find? (fun e => e.name == n) with
  | some (.file _ c) => some c
  | _ => none

/-- A template descriptor, mirroring the dict values of `REPORT_TEMPLATES`
and `SLIDE_TEMPLATES` in `init.py`. -/
structure TemplateInfo where
  name : String
  path : String
  has_makefile : Bool
  makefile_path : Option String
deriving DecidableEq

/-- The `REPORT_TEMPLATES` registry of `init.py`. -/
def REPORT_TEMPLATES : List (String × TemplateInfo) :=
  [("latex_exp", ⟨"LaTeX 论文模板", "latex_exp", true, none⟩),
   ("markdown_template", ⟨"Markdown 模板", "markdown_template", false, none⟩)]

/-- The `SLIDE_TEMPLATES` registry of `init.py`. -/
def SLIDE_TEMPLATES : List (String × TemplateInfo) :=
  [("beamer", ⟨"Beamer LaTeX 模板", "beamer", true, none⟩),
   ("reveal-md", ⟨"reveal-md 模板", "reveal-md", true, some "slide/src"⟩),
   ("ppt", ⟨"PowerPoint 模板", "PPT/templates", false, none⟩)]

/-- Registry lookup (`TEMPLATES[key]`, as an association-list search). -/
def lookupTemplate (ts : List (String × TemplateInfo)) (k : String) : Option TemplateInfo :=
  (ts.find? (fun p => p.1 == k)).map (·.2)

/-- Fallback descriptor; `main` only ever looks up keys produced by the
argument parser's `choices` or by the interactive menus, which are exactly
the registry keys, so this default is never consulted in a real run. -/
def dummyInfo : TemplateInfo := ⟨"", "", false, none⟩

/-- Lexicographic comparison of character lists by code point, the order
Python's `sorted` uses on strings. -/
def lexLe : List Char → List Char → Bool
  | [], _ => true
  | _ :: _, [] => false
  | a :: as, b :: bs =>
    if a.toNat < b.toNat then true
    else if a.toNat = b.toNat then lexLe as bs
    else false

/-- String comparison used to model Python's `sorted` on file names. -/
def pyStrLe (a b : String) : Bool := lexLe a.data b.data

/-- Whether `suf` is a suffix of `s` (Python string `.endswith`). -/
def strEndsWith (s suf : String) : Bool := suf.data.isSuffixOf s.data

/-- Models `list_ppt_templates` of `init.py`: `pptDir` is the listing of the fixed
`PPT/templates` directory (`none` when that directory does not exist); the
result is the sorted list of names matching `*.pptx`. -/
def list_ppt_templates (pptDir : Option (List String)) : List String :=
  match pptDir with
  | none => []
  | some names => (names.filter (fun n => strEndsWith n ".pptx")).mergeSort pyStrLe

/-- Whitespace characters removed by Python's `str.strip()` (ASCII range). -/
def isPyWS (c : Char) : Bool :=
  c == ' ' || c == '\t' || c == '\n' || c == '\r' || c == '\x0b' || c == '\x0c'

/-- ASCII lower-casing of one character. -/
def lowerChar (c : Char) : Char :=
  if 65 ≤ c.toNat && c.toNat ≤ 90 then Char.ofNat (c.toNat + 32) else c

/-- Models Python's `answer.strip().lower()` applied to prompt input. -/
def stripLower (s : String) : String :=
  String.mk ((((s.data.dropWhile isPyWS).reverse.dropWhile isPyWS).reverse).map lowerChar)

/-- The fixed exclusion patterns passed to `shutil.ignore_patterns` in
`copy_template` (order and the duplicate as in the source). -/
def IGNORE_PATTERNS : List String :=
  ["*.aux", "*.log", "*.out", "*.toc", "*.synctex.gz", "*.bbl", "*.blg",
   "*.fls", "*.fdb_latexmk", "*.nav", "*.snm", "*.vrb", "*.pdf",
   "*.aux", "site", "__pycache__", "*.pyc", ".git"]

/-- Models `fnmatch` for the patterns above: each is either a literal name or a
leading `*` followed by a literal suffix. -/
def matchOnePattern (pat n : String) : Bool :=
  match pat.data with
  | '*' :: rest => (String.mk rest).data.isSuffixOf n.data
  | _ => pat == n

/-- A name is ignored when it matches any exclusion pattern. -/
def ignoredName (n : String) : Bool :=
  IGNORE_PATTERNS.any fun pat => matchOnePattern pat n

mutual
/-- Copy of one kept entry: files verbatim, directories recursively filtered;
together with `copytree` this models `shutil.copytree(..., ignore=...)`. -/
def copyEntry : Entry → Entry
  | .file n c => .file n c
  | .dir n cs => .dir n (copytree cs)

/-- Models `shutil.copytree` with the `ignore_patterns` callable: at every level the
entries whose names match a pattern are skipped, the rest are copied. -/
def copytree : List Entry → List Entry
  | [] => []
  | e :: rest =>
    if ignoredName e.name then copytree rest
    else copyEntry e :: copytree rest
end

/-- Replace the first file with the given name, or append; models
`shutil.copy2(source_file, slide_dir / ppt_filename)`. -/
def upsertFile : List Entry → String → String → List Entry
  | [], n, c => [.file n c]
  | e :: rest, n, c =>
    match e with
    | .file n' _ => if n' == n then .file n c :: rest else e :: upsertFile rest n c
    | .dir _ _ => e :: upsertFile rest n c

/-- Python truthiness of an optional string (`None` and `""` are falsy). -/
def truthy : Option String → Bool
  | none => false
  | some s => s != ""

/-- Models `copy_template` of `init.py`, for the calls `main` makes (a
`template_type` of `'report'` or `'slide'` is always supplied, so the
destination passed in is the listing of `target/report` resp. `target/slide`,
`none` when it does not exist yet).  Returns the success flag together with
the resulting destination listing. -/
def copy_template (source : Option (List Entry)) (is_ppt : Bool)
    (ppt_filename : Option String) (dest : Option (List Entry))
    (overwriteAnswer : String) : Bool × Option (List Entry) :=
  match source with
  | none => (false, dest)
  | some src =>
    if is_ppt && truthy ppt_filename then
      let f := ppt_filename.getD ""
      match findFileContent src f with
      | none => (false, dest)
      | some c => (true, some (upsertFile (dest.getD []) f c))
    else
      match dest with
      | some d =>
        if stripLower overwriteAnswer != "y" then (false, some d)
        else (true, some (copytree src))
      | none => (true, some (copytree src))

mutual
/-- One step of the depth-bounded `os.walk` loop of `find_makefile`: a
directory at depth `d` under the walk root is reported when `d ≤ 3` and its
listing contains a `Makefile` file; directories deeper than 3 are skipped
but still descended into, exactly as the `continue` in the source does. -/
def walkEntry (e : Entry) (path : List String) (d : Nat) : Option (List String) :=
  match e with
  | .file _ _ => none
  | .dir n cs =>
    if d ≤ 3 && hasMakefileFile cs then some (path ++ [n])
    else walkDirs cs (path ++ [n]) (d + 1)

/-- The `os.walk` traversal over the entries of one listing (which sit at
depth `d`), in listing order, descending into each subtree before moving to
the next sibling, as `os.walk`'s top-down depth-first order does. -/
def walkDirs (es : List Entry) (path : List String) (d : Nat) : Option (List String) :=
  match es with
  | [] => none
  | e :: rest =>
    match walkEntry e path d with
    | some r => some r
    | none => walkDirs rest path d
end

/-- The `os.walk` phase of `find_makefile`: the root itself is visited first
(at depth 0), then its subtree in pre-order. -/
def osWalkFind (es : List Entry) : Option (List String) :=
  if hasMakefileFile es then some [] else walkDirs es [] 1

/-- The `common_subdirs` candidate list of `find_makefile`, as paths. -/
def COMMON_SUBDIRS : List (List String) := [["slide", "src"], ["src"], ["slide"]]

/-- First candidate subdirectory whose `Makefile` path exists; models the
`for subdir in common_subdirs` loop (a `(subdir / 'Makefile').exists()`
check, hence any entry named `Makefile` counts). -/
def candFirst (es : List Entry) : List (List String) → Option (List String)
  | [] => none
  | p :: rest =>
    match lookupPath es p with
    | some cs => if hasEntryNamed cs "Makefile" then some p else candFirst es rest
    | none => candFirst es rest

/-- Models `find_makefile` of `init.py` over the listing of `base_path`: the root
check, then the fixed candidate subdirectories, then the bounded `os.walk`.
The returned value is the located directory as a path relative to the base
(`[]` is the base itself); `none` is Python's `None` ("not found"). -/
def find_makefile (es : List Entry) : Option (List String) :=
  if hasEntryNamed es "Makefile" then some []
  else
    match candFirst es COMMON_SUBDIRS with
    | some p => some p
    | none => osWalkFind es

/-- Observable outcome of `compile_template`: the returned flag, whether the
external `make` process was invoked, its exit code when it ran, and the
directory `find_makefile` located. -/
structure CompileResult where
  ok : Bool
  ran : Bool
  code : Option Int
  dir : Option (List String)
deriving DecidableEq

/-- Models `compile_template` of `init.py`.  `tree` is the listing of the template's
directory inside the target (`target/report` or `target/slide`, as selected
by the `template_type` the caller passes); `makeResult` is the outcome of
running `make` there (`none` models `FileNotFoundError` or another exception,
`some c` an exit code `c`). -/
def compile_template (key : String) (info : TemplateInfo) (tree : List Entry)
    (makeResult : Option Int) : CompileResult :=
  if !info.has_makefile then ⟨true, false, none, none⟩
  else if key == "ppt" then ⟨true, false, none, none⟩
  else
    match find_makefile tree with
    | none => ⟨false, false, none, none⟩
    | some d =>
      match makeResult with
      | none => ⟨false, true, none, some d⟩
      | some c => ⟨c == 0, true, some c, some d⟩

/-- The selection `main` works with: chosen report key, slide key and PPT
file name (each optional). -/
structure Selection where
  report : Option String
  slide : Option String
  ppt : Option String

/-- Environment of one target slot (`report` or `slide`): the source tree of
the selected template (`none` when the source path does not exist), the
pre-existing destination listing, the answer given to a possible overwrite
prompt, the listing of the slot at build time, and the outcome of invoking
`make`. -/
structure SlotEnv where
  source : Option (List Entry)
  destBefore : Option (List Entry)
  overwriteAnswer : String
  buildTree : List Entry
  makeResult : Option Int

/-- The environment a run observes. -/
structure World where
  rootOk : Bool
  pptDir : Option (List String)
  reportSlot : SlotEnv
  slideSlot : SlotEnv

/-- Observable result of a run of `main`. -/
structure RunResult where
  exitCode : Nat
  targetCreated : Bool
  copyAttempts : List String
  copyResults : List (String × Bool)
  buildStarted : Bool
  buildResults : List (String × CompileResult)
  compileOk : Bool
  pptListing : List String
deriving DecidableEq

/-- A run result for an exit before the copy phase. -/
def earlyExit (code : Nat) (listing : List String) : RunResult :=
  ⟨code, false, [], [], false, [], true, listing⟩

/-- Keys of the selected templates, report first, as `main` processes them. -/
def selKeys (sel : Selection) : List String :=
  (match sel.report with | some k => [k] | none => []) ++
  (match sel.slide with | some k => [k] | none => [])

/-- The copy loop of `main`: one `copy_template` call per selected template
(report first, then slide; the slide call passes `is_ppt` and the chosen
PPT file name), each yielding a per-template success flag.  Both calls are
made unconditionally — a report-copy failure does not skip the slide copy. -/
def copyPhase (sel : Selection) (w : World) : List (String × Bool) :=
  (match sel.report with
   | some k =>
     [(k, (copy_template w.reportSlot.source false none
             w.reportSlot.destBefore w.reportSlot.overwriteAnswer).1)]
   | none => []) ++
  (match sel.slide with
   | some k =>
     [(k, (copy_template w.slideSlot.source (k == "ppt") sel.ppt
             w.slideSlot.destBefore w.slideSlot.overwriteAnswer).1)]
   | none => [])

/-- The compile loop of `main`: `compile_template` for the selected report
and for the selected slide unless it is the PPT template. -/
def buildPhase (sel : Selection) (w : World) : List (String × CompileResult) :=
  (match sel.report with
   | some k =>
     [(k, compile_template k ((lookupTemplate REPORT_TEMPLATES k).getD dummyInfo)
            w.reportSlot.buildTree w.reportSlot.makeResult)]
   | none => []) ++
  (match sel.slide with
   | some k =>
     if k != "ppt" then
       [(k, compile_template k ((lookupTemplate SLIDE_TEMPLATES k).getD dummyInfo)
              w.slideSlot.buildTree w.slideSlot.makeResult)]
     else []
   | none => [])

/-- The part of `main` from the "at least one template" check to the end
(lines 395-468 of `init.py`), shared by both modes: the confirmation prompt
(interactive mode only), `target_path.mkdir`, the copy loop with its
`sys.exit(1)` on failure, the compile loop, and the final summary.  The exit
code of a run that reaches the summary is 0 (the script just returns). -/
def mainCore (sel : Selection) (interactive : Bool) (confirmAnswer : String)
    (w : World) : RunResult :=
  if sel.report == none && sel.slide == none then earlyExit 1 []
  else if interactive && (stripLower confirmAnswer == "n") then earlyExit 0 []
  else if !((copyPhase sel w).all (·.2)) then
    ⟨1, true, (copyPhase sel w).map (·.1), copyPhase sel w, false, [], true, []⟩
  else
    ⟨0, true, (copyPhase sel w).map (·.1), copyPhase sel w, true, buildPhase sel w,
      (buildPhase sel w).all (·.2.ok), []⟩

/-- Parsed command-line flags (keys validated by `argparse` `choices`). -/
structure FlagArgs where
  report : Option String
  slide : Option String
  pptTemplate : Option String

/-- Models `main` in flag mode (`len(sys.argv) > 1`): the repository-root check,
the `--slide ppt` filename validation with its listing of available files,
then the shared core. -/
def mainFlags (a : FlagArgs) (w : World) : RunResult :=
  if !w.rootOk then earlyExit 1 []
  else if a.slide == some "ppt" && !truthy a.pptTemplate then
    match list_ppt_templates w.pptDir with
    | [] => earlyExit 1 []
    | ppts => earlyExit 1 ppts
  else mainCore ⟨a.report, a.slide, a.pptTemplate⟩ false "" w

/-- Raw interactive inputs: the three menu answers (already parsed by
Python's `int`, `none` modelling a `ValueError`) and the final confirmation
answer. -/
structure InteractiveInputs where
  reportChoice : Option Int
  slideChoice : Option Int
  pptChoice : Option Int
  confirmAnswer : String

/-- The list of report menu keys, in registry order. -/
def reportKeys : List String := REPORT_TEMPLATES.map (·.1)

/-- The list of slide menu keys, in registry order. -/
def slideKeys : List String := SLIDE_TEMPLATES.map (·.1)

/-- Report-menu handling of `select_templates_interactive`: `0` and any
invalid or out-of-range input degrade to "no selection". -/
def selectReport (c : Option Int) : Option String :=
  match c with
  | none => none
  | some i =>
    if i == 0 then none
    else if 1 ≤ i && i ≤ (reportKeys.length : Int) then
      some (reportKeys.getD (i - 1).toNat "")
    else none

/-- Slide-menu handling of `select_templates_interactive`, including the
PPT submenu over the discovered `.pptx` files. -/
def selectSlide (c : Option Int) (pptChoice : Option Int)
    (pptDir : Option (List String)) : Option String × Option String :=
  match c with
  | none => (none, none)
  | some i =>
    if i == 0 then (none, none)
    else if 1 ≤ i && i ≤ (slideKeys.length : Int) then
      let key := slideKeys.getD (i - 1).toNat ""
      if key == "ppt" then
        match list_ppt_templates pptDir with
        | [] => (none, none)
        | ppts =>
          match pptChoice with
          | none => (none, none)
          | some j =>
            if 1 ≤ j && j ≤ (ppts.length : Int) then
              (some "ppt", some (ppts.getD (j - 1).toNat ""))
            else (none, none)
      else (some key, none)
    else (none, none)

/-- Models `select_templates_interactive` of `init.py`, as the selection it
returns (the target-path prompt only chooses a path and is not part of any
claim). -/
def interactiveSelection (inp : InteractiveInputs)
    (pptDir : Option (List String)) : Selection :=
  let r := selectReport inp.reportChoice
  let s := selectSlide inp.slideChoice inp.pptChoice pptDir
  ⟨r, s.1, s.2⟩

/-- Models `main` in interactive mode (`len(sys.argv) == 1`): the repository-root
check, the prompt sequence, then the shared core with the confirmation
prompt enabled. -/
def mainInteractive (inp : InteractiveInputs) (w : World) : RunResult :=
  if !w.rootOk then earlyExit 1 []
  else mainCore (interactiveSelection inp w.pptDir) true inp.confirmAnswer w

mutual
/-- Pre-order enumeration of one entry's directory nodes, each with its
relative path, listing and depth. -/
def preorderEntry (e : Entry) (path : List String) (d : Nat) :
    List (List String × List Entry × Nat) :=
  match e with
  | .file _ _ => []
  | .dir n cs => (path ++ [n], cs, d) :: preorderList cs (path ++ [n]) (d + 1)

/-- Pre-order enumeration of the directory nodes under a listing. -/
def preorderList (es : List Entry) (path : List String) (d : Nat) :
    List (List String × List Entry × Nat) :=
  match es with
  | [] => []
  | e :: rest => preorderEntry e path d ++ preorderList rest path d
end

/-- The bounded-search acceptance test: a directory node qualifies when its
depth is at most 3 and its listing contains a `Makefile` file. -/
def walkPred (x : List String × List Entry × Nat) : Bool :=
  decide (x.2.2 ≤ 3) && hasMakefileFile x.2.1

/-- Modelled from the spec's words (amended): the recursive phase as "the
first directory, in depth-first pre-order, at depth at most 3, containing
the build descriptor". -/
def specStageDFS (es : List Entry) : Option (List String) :=
  ((((([] : List String), es, 0)) :: preorderList es [] 1).find? walkPred).map (·.1)

/-- Modelled from the spec's words (amended claim): root, then the fixed
candidate list, then a depth-first pre-order search bounded to 3 levels. -/
def specLocatorDFS (es : List Entry) : Option (List String) :=
  if hasEntryNamed es "Makefile" then some []
  else
    match candFirst es COMMON_SUBDIRS with
    | some p => some p
    | none => specStageDFS es

/-- One breadth-first level step: the directory children of every node of a
level, left to right. -/
def childLevel (lvl : List (List String × List Entry)) : List (List String × List Entry) :=
  lvl.flatMap fun pc =>
    pc.2.filterMap fun e =>
      match e with
      | .dir n cs => some (pc.1 ++ [n], cs)
      | .file _ _ => none

/-- Modelled from the spec's words: the recursive phase as a breadth-first
search bounded to 3 levels of depth, returning the first directory (in level
order) containing the build descriptor. -/
def specStageBFS (es : List Entry) : Option (List String) :=
  let l0 : List (List String × List Entry) := [(([] : List String), es)]
  let l1 := childLevel l0
  let l2 := childLevel l1
  let l3 := childLevel l2
  ((l0 ++ l1 ++ l2 ++ l3).find? (fun pc => hasMakefileFile pc.2)).map (·.1)

/-- Modelled from the spec's words: root, then the fixed candidate list,
then a breadth-first search bounded to 3 levels of depth — the search order
the claim asserts. -/
def specLocatorBFS (es : List Entry) : Option (List String) :=
  if hasEntryNamed es "Makefile" then some []
  else
    match candFirst es COMMON_SUBDIRS with
    | some p => some p
    | none => specStageBFS es

/-- Whether a `Makefile` file sits in this listing or in the listing of a
directory reachable within `fuel` further levels — "a build descriptor
within `fuel` levels of depth". -/
def existsMakefileWithin : Nat → List Entry → Bool
  | 0, cs => hasMakefileFile cs
  | fuel + 1, cs =>
    hasMakefileFile cs ||
      cs.any fun e =>
        match e with
        | .dir _ cs' => existsMakefileWithin fuel cs'
        | .file _ _ => false

mutual
/-- Well-formedness of an entry for the locator claims: no directory is
named `Makefile` (the script's `exists()` checks would take such a directory
for the build descriptor). -/
def entryNoMakefileDir : Entry → Bool
  | .file _ _ => true
  | .dir n cs => n != "Makefile" && listNoMakefileDir cs

/-- Well-formedness of a listing: no directory anywhere is named `Makefile`. -/
def listNoMakefileDir : List Entry → Bool
  | [] => true
  | e :: rest => entryNoMakefileDir e && listNoMakefileDir rest
end

/-- Content of the file at a relative path, following directories by name. -/
def getFilePath : List Entry → List String → Option String
  | _, [] => none
  | es, [n] => findFileContent es n
  | es, n :: rest =>
    match es.find? (fun e => e.name == n) with
    | some (.dir _ cs) => getFilePath cs rest
    | _ => none

/-- Fixture: a copied tree with the descriptor at `slide/src/Makefile`. -/
def treeSlideSrc : List Entry :=
  [Entry.dir "slide" [Entry.dir "src" [Entry.file "Makefile" "all:"]]]

/-- Fixture: a tree whose only `Makefile` sits 4 levels deep. -/
def treeDeep : List Entry :=
  [Entry.dir "a" [Entry.dir "b" [Entry.dir "c" [Entry.dir "d" [Entry.file "Makefile" ""]]]]]

/-- Fixture: a tree on which depth-first and breadth-first first-match
differ — `a/b/Makefile` (depth 2, visited first depth-first) versus
`c/Makefile` (depth 1, found first breadth-first). -/
def treeOrder : List Entry :=
  [Entry.dir "a" [Entry.dir "b" [Entry.file "Makefile" ""]],
   Entry.dir "c" [Entry.file "Makefile" ""]]

/-- Fixture: a slot whose copy succeeds and whose build directory is the
root of the copied tree; `make` exits with the given code. -/
def okSlot (mk : Option Int) : SlotEnv :=
  ⟨some [Entry.file "Makefile" ""], none, "", [Entry.file "Makefile" ""], mk⟩

/-- Fixture world for flag-mode runs: repository root in place, no PPT
directory, both copies succeed, report `make` exits 2, slide `make` exits 0. -/
def wBuildFail : World := ⟨true, none, okSlot (some 2), okSlot (some 0)⟩

/-- Fixture world: the report template's source path is missing, so its copy
fails; the slide copy succeeds. -/
def wCopyFail : World := ⟨true, none, ⟨none, none, "", [], none⟩, okSlot (some 0)⟩

/-- Fixture world: repository root in place, nothing else special. -/
def wRootOnly : World := ⟨true, none, okSlot none, okSlot none⟩

/-- Fixture flag arguments: `--report latex_exp --slide beamer`. -/
def aLB : FlagArgs := ⟨some "latex_exp", some "beamer", none⟩

/-- Fixture selection matching `aLB`. -/
def selLB : Selection := ⟨some "latex_exp", some "beamer", none⟩

/-- Fixture interactive inputs: `0` and `0` at the menus ("select nothing"). -/
def inpNone : InteractiveInputs := ⟨some 0, some 0, none, ""⟩

/-- Fixture interactive inputs: report menu choice 1 (`latex_exp`), no slide,
and `" N "` at the confirmation prompt. -/
def inpDecline : InteractiveInputs := ⟨some 1, some 0, none, " N "⟩

lemma copyPhase_keys (sel : Selection) (w : World) :
    (copyPhase sel w).map (·.1) = selKeys sel := by
  cases hr : sel.report <;> cases hs : sel.slide <;>
    simp [copyPhase, selKeys, hr, hs]

lemma mainCore_copy_exit (sel : Selection) (i : Bool) (ans : String) (w : World) :
    ((mainCore sel i ans w).copyResults.all (·.2) = false →
       (mainCore sel i ans w).exitCode = 1 ∧ (mainCore sel i ans w).buildStarted = false) ∧
    ((mainCore sel i ans w).targetCreated = true →
       (mainCore sel i ans w).copyResults.all (·.2) = true →
       (mainCore sel i ans w).exitCode = 0) := by
  unfold mainCore
  split
  · simp [earlyExit]
  · split
    · simp [earlyExit]
    · split
      · rename_i hfail
        simp at hfail
        simp [hfail]
      · rename_i hok
        simp at hok
        simp [hok]

lemma run_copy_exit (r : RunResult)
    (h : (∃ c l, r = earlyExit c l) ∨
         ∃ sel i ans w, r = mainCore sel i ans w) :
    (r.copyResults.all (·.2) = false → r.exitCode = 1 ∧ r.buildStarted = false) ∧
    (r.targetCreated = true → r.copyResults.all (·.2) = true → r.exitCode = 0) := by
  rcases h with ⟨c, l, rfl⟩ | ⟨sel, i, ans, w, rfl⟩
  · simp [earlyExit]
  · exact mainCore_copy_exit sel i ans w

lemma mainFlags_shape (a : FlagArgs) (w : World) :
    (∃ c l, mainFlags a w = earlyExit c l) ∨
    ∃ sel i ans w', mainFlags a w = mainCore sel i ans w' := by
  unfold mainFlags
  split
  · exact Or.inl ⟨1, [], rfl⟩
  · split
    · split
      · exact Or.inl ⟨1, [], rfl⟩
      · exact Or.inl ⟨1, _, rfl⟩
    · exact Or.inr ⟨_, _, _, _, rfl⟩

lemma mainInteractive_shape (inp : InteractiveInputs) (w : World) :
    (∃ c l, mainInteractive inp w = earlyExit c l) ∨
    ∃ sel i ans w', mainInteractive inp w = mainCore sel i ans w' := by
  unfold mainInteractive
  split
  · exact Or.inl ⟨1, [], rfl⟩
  · exact Or.inr ⟨_, _, _, _, rfl⟩

/-- C9: `compile_template` (and in particular the directory the build
locator returns for it) does not depend on the descriptor's `makefile_path`
hint: two descriptors agreeing on every other field yield identical compile
behaviour on every tree and every `make` outcome, because the hint is never
read. -/
theorem claim_C9_hint_never_read (key : String) (tree : List Entry)
    (mk : Option Int) (i₁ i₂ : TemplateInfo)
    (hn : i₁.name = i₂.name) (hp : i₁.path = i₂.path)
    (hm : i₁.has_makefile = i₂.has_makefile) :
    compile_template key i₁ tree mk = compile_template key i₂ tree mk := by
  simp only [compile_template, hm]

/-- Witness for C9 at the `reveal-md` descriptor and its hint-free variant. -/
theorem claim_C9_witness :
    compile_template "reveal-md" ⟨"reveal-md 模板", "reveal-md", true, some "slide/src"⟩
      treeSlideSrc (some 0) =
    compile_template "reveal-md" ⟨"reveal-md 模板", "reveal-md", true, none⟩
      treeSlideSrc (some 0) :=
  claim_C9_hint_never_read "reveal-md" treeSlideSrc (some 0) _ _ rfl rfl rfl

/-- C5: a flag-mode run from the repository root that selects the slide key
`ppt` without a (truthy) `--ppt-template` exits nonzero, and the `.pptx`
files it prints are exactly the discovered ones. -/
theorem claim_C5_ppt_requires_filename (a : FlagArgs) (w : World)
    (hroot : w.rootOk = true) (hslide : a.slide = some "ppt")
    (hfile : truthy a.pptTemplate = false) :
    (mainFlags a w).exitCode ≠ 0 ∧
    (mainFlags a w).pptListing = list_ppt_templates w.pptDir := by
  simp only [mainFlags, hroot, hslide, hfile]
  cases h : list_ppt_templates w.pptDir <;> simp [earlyExit, h]

/-- Witness for C5: `--slide ppt` with no filename and two discovered files. -/
theorem claim_C5_witness :
    (mainFlags ⟨none, some "ppt", none⟩
        ⟨true, some ["b.pptx", "a.pptx", "notes.txt"], okSlot none, okSlot none⟩).exitCode ≠ 0 ∧
    (mainFlags ⟨none, some "ppt", none⟩
        ⟨true, some ["b.pptx", "a.pptx", "notes.txt"], okSlot none, okSlot none⟩).pptListing =
      list_ppt_templates (some ["b.pptx", "a.pptx", "notes.txt"]) :=
  claim_C5_ppt_requires_filename _ _ rfl rfl rfl

/-- C6: in both modes, a run in which neither a report nor a slide template
ends up selected exits nonzero, creates no target directory and attempts no
copy. -/
theorem claim_C6_no_selection_no_changes (a : FlagArgs) (inp : InteractiveInputs)
    (w : World)
    (har : a.report = none) (has' : a.slide = none)
    (hir : (interactiveSelection inp w.pptDir).report = none)
    (his : (interactiveSelection inp w.pptDir).slide = none) :
    (mainFlags a w).exitCode ≠ 0 ∧ (mainFlags a w).targetCreated = false ∧
    (mainFlags a w).copyAttempts = [] ∧
    (mainInteractive inp w).exitCode ≠ 0 ∧ (mainInteractive inp w).targetCreated = false ∧
    (mainInteractive inp w).copyAttempts = [] := by
  have hf : mainFlags a w = earlyExit 1 [] := by
    unfold mainFlags
    cases hw : w.rootOk
    · simp
    · simp [har, has', mainCore]
  have hi : mainInteractive inp w = earlyExit 1 [] := by
    unfold mainInteractive
    cases hw : w.rootOk
    · simp
    · simp [mainCore, hir, his]
  simp [hf, hi, earlyExit]

/-- C10: in interactive mode from the repository root, after a selection
that did choose a template, an answer normalizing to `n` at the final
confirmation ends the run with exit code 0, no target directory, no copy
and no build. -/
theorem claim_C10_decline_confirmation (inp : InteractiveInputs) (w : World)
    (hroot : w.rootOk = true)
    (hsel : ¬((interactiveSelection inp w.pptDir).report = none ∧
              (interactiveSelection inp w.pptDir).slide = none))
    (hconf : stripLower inp.confirmAnswer = "n") :
    (mainInteractive inp w).exitCode = 0 ∧
    (mainInteractive inp w).targetCreated = false ∧
    (mainInteractive inp w).copyAttempts = [] ∧
    (mainInteractive inp w).buildStarted = false := by
  cases hr : (interactiveSelection inp w.pptDir).report with
  | some k => simp [mainInteractive, hroot, mainCore, hr, hconf, earlyExit]
  | none =>
    cases hs : (interactiveSelection inp w.pptDir).slide with
    | none => exact absurd ⟨hr, hs⟩ hsel
    | some k => simp [mainInteractive, hroot, mainCore, hr, hs, hconf, earlyExit]

/-- C7: once a run reaches the copy phase, every selected template's copy is
attempted (report-copy failure does not skip the slide copy), the per-key
flags line up with the selected keys, and the stage as a whole fails —
exiting 1 without building — exactly when some individual copy failed. -/
theorem claim_C7_all_copies_attempted (sel : Selection) (i : Bool) (ans : String)
    (w : World) (h : (mainCore sel i ans w).targetCreated = true) :
    (mainCore sel i ans w).copyAttempts = selKeys sel ∧
    (mainCore sel i ans w).copyResults.map (·.1) = selKeys sel ∧
    ((mainCore sel i ans w).copyResults.all (·.2) = false →
       (mainCore sel i ans w).exitCode = 1 ∧ (mainCore sel i ans w).buildStarted = false) ∧
    ((mainCore sel i ans w).copyResults.all (·.2) = true →
       (mainCore sel i ans w).buildStarted = true) := by
  by_cases h1 : (sel.report == none && sel.slide == none) = true
  · exfalso
    unfold mainCore at h
    rw [if_pos h1] at h
    simp [earlyExit] at h
  · by_cases h2 : (i && (stripLower ans == "n")) = true
    · exfalso
      unfold mainCore at h
      rw [if_neg h1, if_pos h2] at h
      simp [earlyExit] at h
    · have e : mainCore sel i ans w =
          if !((copyPhase sel w).all (·.2)) then
            ⟨1, true, (copyPhase sel w).map (·.1), copyPhase sel w, false, [], true, []⟩
          else
            ⟨0, true, (copyPhase sel w).map (·.1), copyPhase sel w, true, buildPhase sel w,
              (buildPhase sel w).all (·.2.ok), []⟩ := by
        unfold mainCore
        rw [if_neg h1, if_neg h2]
      rw [e]
      by_cases h3 : (copyPhase sel w).all (·.2) = true
      · simp [h3, copyPhase_keys]
      · rw [Bool.not_eq_true] at h3
        simp [h3, copyPhase_keys]

/-- C2: in every run, a copy failure leads to exit code 1 with the build
phase never started; and when the run reaches the copy phase and every copy
succeeds, the exit code is 0 whatever the build outcomes are — build
failures only show in the summary. -/
theorem claim_C2_copy_failures_abort (a : FlagArgs) (inp : InteractiveInputs)
    (w : World) :
    ((mainFlags a w).copyResults.all (·.2) = false →
       (mainFlags a w).exitCode = 1 ∧ (mainFlags a w).buildStarted = false) ∧
    ((mainFlags a w).targetCreated = true →
       (mainFlags a w).copyResults.all (·.2) = true → (mainFlags a w).exitCode = 0) ∧
    ((mainInteractive inp w).copyResults.all (·.2) = false →
       (mainInteractive inp w).exitCode = 1 ∧ (mainInteractive inp w).buildStarted = false) ∧
    ((mainInteractive inp w).targetCreated = true →
       (mainInteractive inp w).copyResults.all (·.2) = true →
       (mainInteractive inp w).exitCode = 0) := by
  have hf := mainFlags_shape a w
  have hi := mainInteractive_shape inp w
  exact ⟨(run_copy_exit _ hf).1, (run_copy_exit _ hf).2,
         (run_copy_exit _ hi).1, (run_copy_exit _ hi).2⟩

/-- Witness for C2: with both copies fine and the report build failing the
exit code is still 0; with the report source missing the run exits 1 without
building. -/
theorem claim_C2_witness :
    (mainFlags aLB wBuildFail).exitCode = 0 ∧
    (mainFlags aLB wCopyFail).exitCode = 1 ∧
    (mainFlags aLB wCopyFail).buildStarted = false :=
  ⟨(claim_C2_copy_failures_abort aLB inpNone wBuildFail).2.1 (by decide) (by decide),
   ((claim_C2_copy_failures_abort aLB inpNone wCopyFail).1 (by decide)).1,
   ((claim_C2_copy_failures_abort aLB inpNone wCopyFail).1 (by decide)).2⟩

/-- Witness for C6: no flags selected, and interactive answers `0`/`0`. -/
theorem claim_C6_witness :
    (mainFlags ⟨none, none, none⟩ wRootOnly).exitCode ≠ 0 ∧
    (mainFlags ⟨none, none, none⟩ wRootOnly).targetCreated = false ∧
    (mainFlags ⟨none, none, none⟩ wRootOnly).copyAttempts = [] ∧
    (mainInteractive inpNone wRootOnly).exitCode ≠ 0 ∧
    (mainInteractive inpNone wRootOnly).targetCreated = false ∧
    (mainInteractive inpNone wRootOnly).copyAttempts = [] :=
  claim_C6_no_selection_no_changes ⟨none, none, none⟩ inpNone wRootOnly
    rfl rfl (by decide) (by decide)

/-- Witness for C10: choose `latex_exp`, answer `" N "` at the confirmation. -/
theorem claim_C10_witness :
    (mainInteractive inpDecline wRootOnly).exitCode = 0 ∧
    (mainInteractive inpDecline wRootOnly).targetCreated = false ∧
    (mainInteractive inpDecline wRootOnly).copyAttempts = [] ∧
    (mainInteractive inpDecline wRootOnly).buildStarted = false :=
  claim_C10_decline_confirmation inpDecline wRootOnly rfl (by decide) (by decide)

/-- Witness for C7 at `--report latex_exp --slide beamer`: both copies are
attempted and the flags line up with the selected keys. -/
theorem claim_C7_witness :
    (mainCore selLB false "" wBuildFail).copyAttempts = selKeys selLB ∧
    (mainCore selLB false "" wBuildFail).copyResults.map (·.1) = selKeys selLB :=
  ⟨(claim_C7_all_copies_attempted selLB false "" wBuildFail (by decide)).1,
   (claim_C7_all_copies_attempted selLB false "" wBuildFail (by decide)).2.1⟩

/-- Counterexample for C1: under `--report latex_exp --slide beamer` with
both copies succeeding and both builds attempted (report `make` exits 2,
slide `make` exits 0), the process exit code is 0 although not every
build-tool invocation returned 0 — refuting "exit 0 iff both builds
return 0". -/
theorem claim_C1_counterexample :
    (mainFlags aLB wBuildFail).copyResults.all (·.2) = true ∧
    (mainFlags aLB wBuildFail).buildResults.all (·.2.ran) = true ∧
    ¬((mainFlags aLB wBuildFail).exitCode = 0 ↔
      (mainFlags aLB wBuildFail).buildResults.all (fun x => x.2.code == some 0) = true) := by
  decide

/-- C1 (amended): for a flag-mode run selecting a report template and a
non-PowerPoint slide template in which both copies succeed and both builds
are attempted with `make` returning `cr` resp. `cs`, the exit code is 0
regardless; the build-tool exit codes show only in the final summary, which
reports success iff both are 0. -/
theorem claim_C1_amended_exit_zero (rk sk : String) (ri si : TemplateInfo)
    (pt : Option String) (w : World) (cr cs : Int)
    (hroot : w.rootOk = true)
    (hrk : lookupTemplate REPORT_TEMPLATES rk = some ri)
    (hsk : lookupTemplate SLIDE_TEMPLATES sk = some si)
    (hrkppt : rk ≠ "ppt") (hskppt : sk ≠ "ppt")
    (hrm : ri.has_makefile = true) (hsm : si.has_makefile = true)
    (hrcopy : (copy_template w.reportSlot.source false none
        w.reportSlot.destBefore w.reportSlot.overwriteAnswer).1 = true)
    (hscopy : (copy_template w.slideSlot.source false pt
        w.slideSlot.destBefore w.slideSlot.overwriteAnswer).1 = true)
    (hrfind : (find_makefile w.reportSlot.buildTree).isSome = true)
    (hsfind : (find_makefile w.slideSlot.buildTree).isSome = true)
    (hrmk : w.reportSlot.makeResult = some cr)
    (hsmk : w.slideSlot.makeResult = some cs) :
    (mainFlags ⟨some rk, some sk, pt⟩ w).exitCode = 0 ∧
    (mainFlags ⟨some rk, some sk, pt⟩ w).buildStarted = true ∧
    (mainFlags ⟨some rk, some sk, pt⟩ w).buildResults.all (·.2.ran) = true ∧
    ((mainFlags ⟨some rk, some sk, pt⟩ w).compileOk = true ↔ (cr = 0 ∧ cs = 0)) := by
  have hpptb : (sk == "ppt") = false := by
    simp only [beq_eq_false_iff_ne, ne_eq]
    exact hskppt
  have hrpptb : (rk == "ppt") = false := by
    simp only [beq_eq_false_iff_ne, ne_eq]
    exact hrkppt
  obtain ⟨dr, hdr⟩ := Option.isSome_iff_exists.mp hrfind
  obtain ⟨ds, hds⟩ := Option.isSome_iff_exists.mp hsfind
  have hcopy : copyPhase ⟨some rk, some sk, pt⟩ w = [(rk, true), (sk, true)] := by
    simp only [copyPhase, hpptb]
    rw [hrcopy, hscopy]
    rfl
  have hbuild : buildPhase ⟨some rk, some sk, pt⟩ w =
      [(rk, ⟨cr == 0, true, some cr, some dr⟩), (sk, ⟨cs == 0, true, some cs, some ds⟩)] := by
    have hbne : (sk != "ppt") = true := by
      simp [bne, hpptb]
    simp only [buildPhase, hrk, hsk, Option.getD_some, hbne, if_true]
    simp only [compile_template, hrm, hsm, hrpptb, hpptb, Bool.not_true,
      Bool.false_eq_true, if_false, hdr, hds, hrmk, hsmk]
    simp
  have hflag : mainFlags ⟨some rk, some sk, pt⟩ w =
      mainCore ⟨some rk, some sk, pt⟩ false "" w := by
    unfold mainFlags
    simp [hroot, hpptb]
  rw [hflag]
  unfold mainCore
  rw [hcopy]
  simp only [hbuild]
  simp [beq_iff_eq]

/-- Witness for the amended C1 at `--report latex_exp --slide beamer` with
`make` exiting 2 for the report and 0 for the slide. -/
theorem claim_C1_amended_witness :
    (mainFlags aLB wBuildFail).exitCode = 0 ∧
    (mainFlags aLB wBuildFail).buildStarted = true ∧
    (mainFlags aLB wBuildFail).buildResults.all (·.2.ran) = true ∧
    ((mainFlags aLB wBuildFail).compileOk = true ↔ ((2 : Int) = 0 ∧ (0 : Int) = 0)) :=
  claim_C1_amended_exit_zero "latex_exp" "beamer"
    ⟨"LaTeX 论文模板", "latex_exp", true, none⟩ ⟨"Beamer LaTeX 模板", "beamer", true, none⟩
    none wBuildFail 2 0 rfl rfl rfl (by decide) (by decide) rfl rfl
    (by decide) (by decide) (by decide) (by decide) rfl rfl

lemma lexLe_total : ∀ a b : List Char, (lexLe a b || lexLe b a) = true
  | [], _ => by simp [lexLe]
  | _ :: _, [] => by simp [lexLe]
  | a :: as, b :: bs => by
    simp only [lexLe]
    rcases Nat.lt_trichotomy a.toNat b.toNat with h | h | h
    · simp [h]
    · simp only [h, Nat.lt_irrefl, if_false, if_true]
      exact lexLe_total as bs
    · have h1 : ¬a.toNat < b.toNat := Nat.lt_asymm h
      have h2 : ¬a.toNat = b.toNat := by omega
      have h3 : ¬b.toNat = a.toNat := by omega
      simp [h, h1, h2, h3]

lemma lexLe_trans : ∀ a b c : List Char,
    lexLe a b = true → lexLe b c = true → lexLe a c = true
  | [], _, _ => by intro _ _; simp [lexLe]
  | _ :: _, [], _ => by intro h _; simp [lexLe] at h
  | _ :: _, _ :: _, [] => by intro _ h; simp [lexLe] at h
  | a :: as, b :: bs, c :: cs => by
    simp only [lexLe]
    intro h1 h2
    split_ifs at h1 h2 ⊢ <;>
      first
      | rfl
      | omega
      | (exact absurd h1 (by decide))
      | (exact absurd h2 (by decide))
      | (exact lexLe_trans as bs cs h1 h2)

lemma pyStrLe_total (a b : String) : (pyStrLe a b || pyStrLe b a) = true :=
  lexLe_total a.data b.data

lemma pyStrLe_trans (a b c : String) :
    pyStrLe a b = true → pyStrLe b c = true → pyStrLe a c = true :=
  lexLe_trans a.data b.data c.data

/-- C8: the PPT enumeration returns the empty list when the fixed directory
is absent, and otherwise a list sorted by the code-point order Python's
`sorted` uses whose members are exactly the directory entries matching
`*.pptx`. -/
theorem claim_C8_ppt_enumeration :
    list_ppt_templates none = [] ∧
    ∀ names : List String,
      (list_ppt_templates (some names)).Pairwise (fun a b => pyStrLe a b = true) ∧
      (list_ppt_templates (some names)).Perm
        (names.filter (fun n => strEndsWith n ".pptx")) := by
  refine ⟨rfl, fun names => ⟨?_, ?_⟩⟩
  · exact @List.sorted_mergeSort String pyStrLe
      (fun a b c => pyStrLe_trans a b c) (fun a b => pyStrLe_total a b) _
  · exact List.mergeSort_perm _ _

lemma copyEntry_name (e : Entry) : (copyEntry e).name = e.name := by
  cases e <;> simp [copyEntry, Entry.name]

lemma copytree_not_ignored : ∀ (es : List Entry) (e : Entry),
    e ∈ copytree es → ignoredName e.name = false
  | [], e => by simp [copytree]
  | x :: rest, e => by
    intro hx
    by_cases hi : ignoredName x.name = true
    · unfold copytree at hx
      rw [if_pos hi] at hx
      exact copytree_not_ignored rest e hx
    · unfold copytree at hx
      rw [if_neg hi] at hx
      rcases List.mem_cons.mp hx with rfl | hx
      · rw [copyEntry_name]
        exact Bool.not_eq_true _ ▸ Bool.eq_false_iff.mpr hi
      · exact copytree_not_ignored rest e hx

lemma find_copytree_ignored (es : List Entry) (n : String)
    (h : ignoredName n = true) :
    (copytree es).find? (fun e => e.name == n) = none := by
  apply List.find?_eq_none.mpr
  intro x hx
  have hclean := copytree_not_ignored es x hx
  simp only [beq_iff_eq]
  intro hxe
  rw [hxe, h] at hclean
  exact Bool.true_eq_false ▸ hclean ▸ rfl

lemma find_copytree_clean (es : List Entry) (n : String)
    (h : ignoredName n = false) :
    (copytree es).find? (fun e => e.name == n) =
      (es.find? (fun e => e.name == n)).map copyEntry := by
  induction es with
  | nil => simp [copytree]
  | cons e rest ih =>
    by_cases hi : ignoredName e.name = true
    · have hne : (e.name == n) = false := by
        apply beq_eq_false_iff_ne.mpr
        intro he
        rw [he, h] at hi
        exact Bool.false_ne_true hi
      unfold copytree
      rw [if_pos hi, List.find?_cons_of_neg _ (by simp [hne]), ih]
    · unfold copytree
      rw [if_neg hi]
      by_cases he : (e.name == n) = true
      · simp only [List.find?, copyEntry_name, he]
        rfl
      · have he' : (e.name == n) = false := Bool.eq_false_iff.mpr he
        simp only [List.find?, copyEntry_name, he']
        exact ih

lemma findFileContent_copytree (es : List Entry) (n : String) :
    findFileContent (copytree es) n =
      if ignoredName n = true then none else findFileContent es n := by
  by_cases h : ignoredName n = true
  · rw [if_pos h]
    unfold findFileContent
    rw [find_copytree_ignored es n h]
  · rw [if_neg h]
    unfold findFileContent
    rw [find_copytree_clean es n (Bool.eq_false_iff.mpr h)]
    cases es.find? (fun e => e.name == n) with
    | none => rfl
    | some e => cases e <;> rfl

lemma getFilePath_copytree : ∀ (p : List String) (es : List Entry),
    getFilePath (copytree es) p =
      if p.all (fun c => !ignoredName c) then getFilePath es p else none
  | [], es => by simp [getFilePath]
  | [n], es => by
    simp only [getFilePath, List.all_cons, List.all_nil, Bool.and_true]
    rw [findFileContent_copytree]
    by_cases h : ignoredName n = true <;> simp [h]
  | n :: m :: rest, es => by
    simp only [getFilePath, List.all_cons]
    by_cases h : ignoredName n = true
    · rw [find_copytree_ignored es n h]
      simp [h]
    · rw [find_copytree_clean es n (Bool.eq_false_iff.mpr h)]
      have hb : ignoredName n = false := Bool.eq_false_iff.mpr h
      cases hf : es.find? (fun e => e.name == n) with
      | none => simp [Option.map]
      | some e =>
        cases e with
        | file n' c => simp [Option.map, copyEntry]
        | dir n' cs =>
          simp only [Option.map, copyEntry]
          rw [getFilePath_copytree (m :: rest) cs]
          simp [hb]

lemma copy_template_general_none (src : List Entry) (ans : String) :
    copy_template (some src) false none none ans = (true, some (copytree src)) := rfl

lemma copy_template_general_some (src d : List Entry) (ans : String) :
    copy_template (some src) false none (some d) ans =
      if (stripLower ans != "y") = true then (false, some d)
      else (true, some (copytree src)) := rfl

/-- C4: a successful non-PPT copy of a selected report template produces the
destination tree `copytree src`, and a path survives into that tree with its
file content exactly when it exists in the source and none of its components
matches an exclusion pattern — the copy is the source minus the excluded
files and directories. -/
theorem claim_C4_copy_is_filtered_source (k : String) (info : TemplateInfo)
    (src : List Entry) (destBefore : Option (List Entry)) (ans : String)
    (res : Option (List Entry))
    (hk : lookupTemplate REPORT_TEMPLATES k = some info)
    (hcopy : copy_template (some src) false none destBefore ans = (true, res)) :
    res = some (copytree src) ∧
    ∀ p : List String,
      getFilePath (copytree src) p =
        if p.all (fun c => !ignoredName c) then getFilePath src p else none := by
  refine ⟨?_, fun p => getFilePath_copytree p src⟩
  cases destBefore with
  | none =>
    rw [copy_template_general_none] at hcopy
    injection hcopy with h1 h2
    exact h2.symm
  | some d =>
    rw [copy_template_general_some] at hcopy
    by_cases hans : (stripLower ans != "y") = true
    · rw [if_pos hans] at hcopy
      injection hcopy with h1 h2
      exact absurd h1 (by decide)
    · rw [if_neg hans] at hcopy
      injection hcopy with h1 h2
      exact h2.symm

/-- Fixture source tree containing files and directories that match the
exclusion patterns. -/
def srcFixture : List Entry :=
  [Entry.file "main.tex" "x", Entry.file "main.aux" "y",
   Entry.dir ".git" [Entry.file "HEAD" "z"],
   Entry.dir "fig" [Entry.file "a.pdf" "p", Entry.file "a.svg" "s"]]

/-- Witness for C4 on `srcFixture`: the copy succeeds into `copytree
srcFixture`, the `a.pdf` under `fig` is excluded and the `a.svg` survives. -/
theorem claim_C4_witness :
    (copy_template (some srcFixture) false none none "").2 = some (copytree srcFixture) ∧
    getFilePath (copytree srcFixture) ["fig", "a.pdf"] = none ∧
    getFilePath (copytree srcFixture) ["fig", "a.svg"] = some "s" :=
  ⟨(claim_C4_copy_is_filtered_source "latex_exp" ⟨"LaTeX 论文模板", "latex_exp", true, none⟩
      srcFixture none "" _ rfl rfl).1,
   ((claim_C4_copy_is_filtered_source "latex_exp" ⟨"LaTeX 论文模板", "latex_exp", true, none⟩
      srcFixture none "" _ rfl rfl).2 ["fig", "a.pdf"]).trans (by decide),
   ((claim_C4_copy_is_filtered_source "latex_exp" ⟨"LaTeX 论文模板", "latex_exp", true, none⟩
      srcFixture none "" _ rfl rfl).2 ["fig", "a.svg"]).trans (by decide)⟩

lemma option_or_map {α β : Type} (a b : Option α) (f : α → β) :
    (a.or b).map f = (a.map f).or (b.map f) := by
  cases a <;> rfl

lemma walkDirs_preorder :
    ∀ (es : List Entry) (path : List String) (d : Nat),
      walkDirs es path d = ((preorderList es path d).find? walkPred).map (·.1) := by
  refine walkDirs.induct
    (fun e path d =>
      walkEntry e path d = ((preorderEntry e path d).find? walkPred).map (·.1))
    (fun es path d =>
      walkDirs es path d = ((preorderList es path d).find? walkPred).map (·.1))
    ?_ ?_ ?_ ?_ ?_ ?_
  · intro path d n c
    simp [walkEntry, preorderEntry]
  · intro path d n cs h
    simp [walkEntry, preorderEntry, List.find?, walkPred, h]
  · intro path d n cs h ih
    rw [walkEntry, if_neg h, preorderEntry]
    simp only [List.find?, walkPred]
    rw [Bool.eq_false_iff.mpr h]
    exact ih
  · intro path d
    simp [walkDirs, preorderList]
  · intro path d e rest r h ih
    rw [walkDirs]
    simp only [h]
    rw [preorderList, List.find?_append, option_or_map]
    rw [← ih, h]
    rfl
  · intro path d e rest h ih1 ih2
    rw [walkDirs]
    simp only [h]
    rw [preorderList, List.find?_append, option_or_map, ← ih1, h]
    exact ih2

lemma osWalk_specStage (es : List Entry) : osWalkFind es = specStageDFS es := by
  unfold osWalkFind specStageDFS
  by_cases h : hasMakefileFile es = true
  · simp [List.find?, walkPred, h]
  · have h' := Bool.eq_false_iff.mpr h
    simp [List.find?, walkPred, h', walkDirs_preorder es [] 1]

lemma exists_of_hasMakefile (f : Nat) (cs : List Entry)
    (h : hasMakefileFile cs = true) : existsMakefileWithin f cs = true := by
  cases f <;> simp [existsMakefileWithin, h]

lemma any_dirs_false_iff (f : Nat) (cs : List Entry) :
    (cs.any fun e =>
      match e with
      | .dir _ cs' => existsMakefileWithin f cs'
      | .file _ _ => false) = false ↔
    ∀ n cs', Entry.dir n cs' ∈ cs → existsMakefileWithin f cs' = false := by
  rw [List.any_eq_false]
  constructor
  · intro h n cs' hmem
    have := h _ hmem
    simpa using this
  · intro h e hmem
    cases e with
    | file n c => simp
    | dir n cs' => simpa using h n cs' hmem

lemma walkDirs_deep :
    ∀ (es : List Entry) (path : List String) (d : Nat),
      4 ≤ d → walkDirs es path d = none := by
  refine walkDirs.induct
    (fun e path d => 4 ≤ d → walkEntry e path d = none)
    (fun es path d => 4 ≤ d → walkDirs es path d = none)
    ?_ ?_ ?_ ?_ ?_ ?_
  · intro path d n c _
    rfl
  · intro path d n cs h hd
    exfalso
    have : decide (d ≤ 3) = false := by
      simp only [decide_eq_false_iff_not]
      omega
    rw [this, Bool.false_and] at h
    exact Bool.false_ne_true h
  · intro path d n cs h ih hd
    rw [walkEntry, if_neg h]
    exact ih (by omega)
  · intro path d _
    rfl
  · intro path d e rest r h ih hd
    rw [ih hd] at h
    exact absurd h (by simp)
  · intro path d e rest h ih1 ih2 hd
    rw [walkDirs]
    simp only [h]
    exact ih2 hd

lemma walkDirs_none_iff :
    ∀ (es : List Entry) (path : List String) (d : Nat),
      d ≤ 3 →
      (walkDirs es path d = none ↔
        ∀ n cs, Entry.dir n cs ∈ es → existsMakefileWithin (3 - d) cs = false) := by
  refine walkDirs.induct
    (fun e path d => d ≤ 3 →
      (walkEntry e path d = none ↔
        ∀ n cs, e = Entry.dir n cs → existsMakefileWithin (3 - d) cs = false))
    (fun es path d => d ≤ 3 →
      (walkDirs es path d = none ↔
        ∀ n cs, Entry.dir n cs ∈ es → existsMakefileWithin (3 - d) cs = false))
    ?_ ?_ ?_ ?_ ?_ ?_
  · intro path d n c _
    simp [walkEntry]
  · intro path d n cs h hd
    have hmf : hasMakefileFile cs = true := by
      have h' := h
      simp only [Bool.and_eq_true] at h'
      exact h'.2
    constructor
    · intro hc
      rw [walkEntry, if_pos h] at hc
      exact absurd hc (by simp)
    · intro hall
      have := hall n cs rfl
      rw [exists_of_hasMakefile _ _ hmf] at this
      exact absurd this (by simp)
  · intro path d n cs h ih hd
    have hmf : hasMakefileFile cs = false := by
      simp only [Bool.and_eq_true, decide_eq_true_eq, not_and] at h
      exact Bool.eq_false_iff.mpr (h hd)
    rw [walkEntry, if_neg h]
    rcases Nat.lt_or_ge d 3 with hlt | hge
    · have hiff := ih (by omega)
      have harith : 3 - d = (3 - (d + 1)) + 1 := by omega
      constructor
      · intro hnone n' cs' he
        injection he with he1 he2
        subst he2
        rw [harith]
        simp only [existsMakefileWithin, hmf, Bool.false_or]
        exact (any_dirs_false_iff _ _).mpr (hiff.mp hnone)
      · intro hall
        apply hiff.mpr
        have := hall n cs rfl
        rw [harith] at this
        simp only [existsMakefileWithin, hmf, Bool.false_or] at this
        exact (any_dirs_false_iff _ _).mp this
    · have hd3 : d = 3 := by omega
      subst hd3
      rw [walkDirs_deep cs (path ++ [n]) 4 (by omega)]
      constructor
      · intro _ n' cs' he
        injection he with he1 he2
        subst he2
        simpa [existsMakefileWithin] using hmf
      · intro _
        rfl
  · intro path d _
    simp [walkDirs]
  · intro path d e rest r h ih hd
    have hiff := ih hd
    rw [walkDirs]
    simp only [h]
    constructor
    · intro hc
      exact absurd hc (by simp)
    · intro hall
      have : walkEntry e path d = none := by
        apply hiff.mpr
        intro n cs he
        subst he
        exact hall n cs (List.mem_cons_self _ _)
      rw [this] at h
      exact absurd h (by simp)
  · intro path d e rest h ih1 ih2 hd
    have hiff1 := ih1 hd
    have hiff2 := ih2 hd
    rw [walkDirs]
    simp only [h]
    rw [hiff2]
    constructor
    · intro hall n cs hmem
      rcases List.mem_cons.mp hmem with he | hm
      · exact hiff1.mp h n cs he.symm
      · exact hall n cs hm
    · intro hall n cs hmem
      exact hall n cs (List.mem_cons_of_mem _ hmem)

lemma wf_mem : ∀ (es : List Entry) (e : Entry),
    listNoMakefileDir es = true → e ∈ es → entryNoMakefileDir e = true
  | [], e => by simp
  | x :: rest, e => by
    intro hwf hmem
    rw [listNoMakefileDir, Bool.and_eq_true] at hwf
    rcases List.mem_cons.mp hmem with rfl | hm
    · exact hwf.1
    · exact wf_mem rest e hwf.2 hm

lemma hasMakefile_of_entry_wf (cs : List Entry)
    (hwf : listNoMakefileDir cs = true)
    (h : hasEntryNamed cs "Makefile" = true) : hasMakefileFile cs = true := by
  rw [hasEntryNamed, List.any_eq_true] at h
  obtain ⟨e, hmem, hname⟩ := h
  cases e with
  | file n c =>
    rw [hasMakefileFile, List.any_eq_true]
    exact ⟨.file n c, hmem, by simpa [Entry.name] using hname⟩
  | dir n cs' =>
    exfalso
    have hw := wf_mem cs _ hwf hmem
    rw [entryNoMakefileDir, Bool.and_eq_true] at hw
    have : n = "Makefile" := by simpa [Entry.name] using hname
    rw [this] at hw
    simpa using hw.1

lemma lookupPath_wf : ∀ (p : List String) (es cs : List Entry),
    lookupPath es p = some cs → listNoMakefileDir es = true →
    listNoMakefileDir cs = true
  | [], es, cs => by
    intro h hwf
    rw [lookupPath] at h
    injection h with h
    exact h ▸ hwf
  | n :: rest, es, cs => by
    intro h hwf
    rw [lookupPath] at h
    cases hf : es.find? (fun e => e.name == n) with
    | none => rw [hf] at h; exact absurd h (by simp)
    | some e =>
      rw [hf] at h
      cases e with
      | file n' c => exact absurd h (by simp)
      | dir n' cs' =>
        have hmem := List.mem_of_find?_eq_some hf
        have hw := wf_mem es _ hwf hmem
        rw [entryNoMakefileDir, Bool.and_eq_true] at hw
        exact lookupPath_wf rest cs' cs h hw.2

lemma existsMF_of_lookup : ∀ (p : List String) (es cs : List Entry) (f : Nat),
    lookupPath es p = some cs → hasMakefileFile cs = true → p.length ≤ f →
    existsMakefileWithin f es = true
  | [], es, cs, f => by
    intro h hmf _
    rw [lookupPath] at h
    injection h with h
    exact exists_of_hasMakefile f es (h ▸ hmf)
  | n :: rest, es, cs, f => by
    intro h hmf hlen
    rw [lookupPath] at h
    cases hf : es.find? (fun e => e.name == n) with
    | none => rw [hf] at h; exact absurd h (by simp)
    | some e =>
      rw [hf] at h
      cases e with
      | file n' c => exact absurd h (by simp)
      | dir n' cs' =>
        have hmem := List.mem_of_find?_eq_some hf
        cases f with
        | zero => simp at hlen
        | succ f' =>
          have hrec := existsMF_of_lookup rest cs' cs f' h hmf (by simpa using hlen)
          rw [existsMakefileWithin, Bool.or_eq_true]
          right
          rw [List.any_eq_true]
          exact ⟨.dir n' cs', hmem, by simpa using hrec⟩

lemma candFirst_none_of : ∀ (ps : List (List String)) (es : List Entry),
    listNoMakefileDir es = true → existsMakefileWithin 3 es = false →
    (∀ p ∈ ps, p.length ≤ 3) → candFirst es ps = none
  | [], es => by
    intro _ _ _
    rfl
  | p :: rest, es => by
    intro hwf hno hlen
    rw [candFirst]
    cases hlp : lookupPath es p with
    | none => exact candFirst_none_of rest es hwf hno (fun q hq => hlen q (List.mem_cons_of_mem _ hq))
    | some cs =>
      show (if hasEntryNamed cs "Makefile" = true then some p else candFirst es rest) = none
      by_cases hen : hasEntryNamed cs "Makefile" = true
      · exfalso
        have hcswf := lookupPath_wf p es cs hlp hwf
        have hmf := hasMakefile_of_entry_wf cs hcswf hen
        have := existsMF_of_lookup p es cs 3 hlp hmf (hlen p (List.mem_cons_self _ _))
        rw [this] at hno
        exact absurd hno (by simp)
      · rw [if_neg hen]
        exact candFirst_none_of rest es hwf hno (fun q hq => hlen q (List.mem_cons_of_mem _ hq))

lemma find_eq_specDFS (es : List Entry) : find_makefile es = specLocatorDFS es := by
  unfold find_makefile specLocatorDFS
  rw [osWalk_specStage]

lemma find_none_iff (es : List Entry) (hwf : listNoMakefileDir es = true) :
    find_makefile es = none ↔ existsMakefileWithin 3 es = false := by
  constructor
  · intro h
    unfold find_makefile at h
    by_cases h1 : hasEntryNamed es "Makefile" = true
    · rw [if_pos h1] at h
      exact absurd h (by simp)
    · rw [if_neg h1] at h
      cases hc : candFirst es COMMON_SUBDIRS with
      | some p => rw [hc] at h; exact absurd h (by simp)
      | none =>
        rw [hc] at h
        unfold osWalkFind at h
        by_cases h2 : hasMakefileFile es = true
        · rw [if_pos h2] at h
          exact absurd h (by simp)
        · rw [if_neg h2] at h
          have hall := (walkDirs_none_iff es [] 1 (by omega)).mp h
          simp only [existsMakefileWithin, Bool.eq_false_iff.mpr h2, Bool.false_or]
          apply (any_dirs_false_iff 2 es).mpr
          intro n cs hmem
          simpa using hall n cs hmem
  · intro h
    have h2 : hasMakefileFile es = false := by
      cases hm : hasMakefileFile es
      · rfl
      · rw [exists_of_hasMakefile 3 es hm] at h
        exact absurd h (by simp)
    have h1 : hasEntryNamed es "Makefile" = false := by
      cases he : hasEntryNamed es "Makefile"
      · rfl
      · rw [hasMakefile_of_entry_wf es hwf he] at h2
        exact absurd h2 (by simp)
    unfold find_makefile
    rw [if_neg (by simp [h1])]
    rw [candFirst_none_of COMMON_SUBDIRS es hwf h (by decide)]
    unfold osWalkFind
    rw [if_neg (by simp [h2])]
    apply (walkDirs_none_iff es [] 1 (by omega)).mpr
    intro n cs hmem
    simp only [existsMakefileWithin, h2, Bool.false_or] at h
    have := (any_dirs_false_iff 2 es).mp h n cs hmem
    simpa using this

/-- Counterexample for C3: on `treeOrder` (descriptors at `a/b/Makefile` and
`c/Makefile`, none at the root or the fixed candidates) the locator returns
the depth-first pre-order first match `a/b`, while the breadth-first search
the claim describes would return `c` — the recursive phase is not
breadth-first. -/
theorem claim_C3_counterexample :
    find_makefile treeOrder = some ["a", "b"] ∧
    specLocatorBFS treeOrder = some ["c"] ∧
    find_makefile treeOrder ≠ specLocatorBFS treeOrder := by
  decide

/-- C3 (amended): the locator checks the root, then the fixed candidate
subdirectories, then a depth-first pre-order recursive search bounded to 3
levels (it coincides with that three-stage specification on every tree);
on a well-formed tree it returns "not found" exactly when no descriptor
sits within 3 levels; with the descriptor at `slide/src/Makefile` it
returns that directory; and with no descriptor within 3 levels the build is
skipped (`make` never runs, the phase reports failure) rather than
crashing. -/
theorem claim_C3_amended_search_order (es : List Entry)
    (hwf : listNoMakefileDir es = true) :
    (∀ t : List Entry, find_makefile t = specLocatorDFS t) ∧
    (find_makefile es = none ↔ existsMakefileWithin 3 es = false) ∧
    find_makefile treeSlideSrc = some ["slide", "src"] ∧
    find_makefile treeDeep = none ∧
    compile_template "beamer" ⟨"Beamer LaTeX 模板", "beamer", true, none⟩ treeDeep (some 0) =
      ⟨false, false, none, none⟩ := by
  refine ⟨find_eq_specDFS, find_none_iff es hwf, by decide, by decide, by decide⟩

/-- Witness for the amended C3 at `treeDeep`, whose only descriptor is 4
levels deep: no descriptor within 3 levels, hence "not found". -/
theorem claim_C3_amended_witness : find_makefile treeDeep = none :=
  ((claim_C3_amended_search_order treeDeep (by decide)).2.1).mpr (by decide)

end TemplateInit
